import Mathlib

/-! # Alert (api/v1beta2/alert_types.go)

A shallow embedding of the Alert resource of the notification controller:

* the Go structs `AlertSpec`, `AlertStatus`, `Alert` and the two accessor
  methods `GetConditions` and `SetConditions`, as records and state-passing
  functions;
* the validation and defaulting markers written on the struct fields
  (`+required`, `+optional`, `+kubebuilder:validation:Enum`,
  `+kubebuilder:default`, `+kubebuilder:validation:MaxLength`), as marker
  records interpreted by the defaulting and validation passes they declare;
* the severity filter, which the file only documents, modelled from the
  specification.
-/

namespace V1beta2

/-! ## Go data model -/

/-- A Go slice value as far as its contents go: `none` is the nil slice,
`some xs` a non-nil slice holding `xs` in order (`some []` is the empty,
non-nil slice). -/
abbrev Slice (α : Type) : Type := Option (List α)

/-- The elements of a slice, in order; the nil slice has none. -/
def Slice.elems {α : Type} : Slice α → List α
  | none => []
  | some xs => xs

/-- The declarations that `alert_types.go` takes from other packages
(`meta`, `metav1`, `api/v1`).  Their definitions are not part of the file, so
the embedding is parametric in them.  The two `valid…` fields stand for the
schema validation of the two imported types that occur in `AlertSpec`. -/
structure Pkg where
  /-- Go type `metav1.TypeMeta`. -/
  TypeMeta : Type
  /-- Go type `metav1.ObjectMeta`. -/
  ObjectMeta : Type
  /-- Go type `metav1.Condition`. -/
  Condition : Type
  /-- Go type `meta.LocalObjectReference`. -/
  LocalObjectReference : Type
  /-- Go type `meta.ReconcileRequestStatus`. -/
  ReconcileRequestStatus : Type
  /-- Go type `v1.CrossNamespaceObjectReference`. -/
  CrossNamespaceObjectReference : Type
  /-- Schema validation of a `meta.LocalObjectReference` value. -/
  validLocalObjectReference : LocalObjectReference → Bool
  /-- Schema validation of a `v1.CrossNamespaceObjectReference` value. -/
  validCrossNamespaceObjectReference : CrossNamespaceObjectReference → Bool

/-- Constant `AlertKind`. -/
def AlertKind : String := "Alert"

/-- Go struct `AlertSpec`. -/
structure AlertSpec (P : Pkg) where
  ProviderRef : P.LocalObjectReference
  EventSeverity : String
  EventSources : Slice P.CrossNamespaceObjectReference
  ExclusionList : Slice String
  Summary : String
  Suspend : Bool

/-- Go struct `AlertStatus`; the embedded `meta.ReconcileRequestStatus` is the
first field.  `ObservedGeneration` is an `int64`; no arithmetic is done on it
here. -/
structure AlertStatus (P : Pkg) where
  ReconcileRequestStatus : P.ReconcileRequestStatus
  Conditions : Slice P.Condition
  ObservedGeneration : Int

/-- Go struct `Alert`. -/
structure Alert (P : Pkg) where
  TypeMeta : P.TypeMeta
  ObjectMeta : P.ObjectMeta
  Spec : AlertSpec P
  Status : AlertStatus P

/-- The zero value of `AlertStatus`, given the zero value of the embedded
imported struct: a nil condition slice and generation 0. -/
def AlertStatus.zero {P : Pkg} (r : P.ReconcileRequestStatus) : AlertStatus P :=
  { ReconcileRequestStatus := r, Conditions := none, ObservedGeneration := 0 }

/-- Method `func (in *Alert) GetConditions() []metav1.Condition`, on a non-nil
receiver.  The receiver is a pointer, so the method is a state transformer on
the pointee: it returns the result together with the pointee after the call.
The body is `return in.Status.Conditions`. -/
def GetConditions {P : Pkg} (a : Alert P) : Slice P.Condition × Alert P :=
  (a.Status.Conditions, a)

/-- Method `func (in *Alert) SetConditions(conditions []metav1.Condition)`, on a
non-nil receiver: the pointee after the call.  The body is
`in.Status.Conditions = conditions`. -/
def SetConditions {P : Pkg} (a : Alert P) (conditions : Slice P.Condition) : Alert P :=
  { a with Status := { a.Status with Conditions := conditions } }

/-! ## Schema markers

The comments on the struct fields carry the markers from which the resource
schema is generated.  A submitted document is a tree of keys, each present
with a value or absent; the schema first fills in defaults for absent keys
and then validates the result. -/

/-- The markers that occur on the string fields of the file:
`+required` or `+optional`, `+kubebuilder:validation:Enum`,
`+kubebuilder:default` and `+kubebuilder:validation:MaxLength`. -/
structure StringMarkers where
  required : Bool
  enum : Option (List String)
  dflt : Option String
  maxLength : Option Nat

/-- Defaulting of one key: an absent key takes the declared default, when
there is one; a present key is left as it is. -/
def applyDefault {α : Type} (dflt : Option α) : Option α → Option α
  | some v => some v
  | none => dflt

/-- Enum validation: with an enum marker the value is one of the listed ones. -/
def checkEnum (enum : Option (List String)) (v : String) : Bool :=
  match enum with
  | none => true
  | some allowed => decide (v ∈ allowed)

/-- MaxLength validation: with a max-length marker the number of characters
of the value is at most the bound. -/
def checkMaxLength (maxLength : Option Nat) (v : String) : Bool :=
  match maxLength with
  | none => true
  | some n => decide (v.length ≤ n)

/-- Validation of a key of string type: a required key is present, and a
present value passes the enum and max-length checks. -/
def checkString (m : StringMarkers) : Option String → Bool
  | none => !m.required
  | some v => checkEnum m.enum v && checkMaxLength m.maxLength v

/-- Validation of a key of any other type that carries only `+required` or
`+optional`: a required key is present, and a present value is valid for the
schema of its own type. -/
def checkValue {α : Type} (required : Bool) (valid : α → Bool) : Option α → Bool
  | none => !required
  | some v => valid v

/-- Markers of `AlertSpec.ProviderRef`: `+required`. -/
def providerRefRequired : Bool := true

/-- Markers of `AlertSpec.EventSeverity`: `Enum=info;error`, `default:=info`,
`+optional`. -/
def eventSeverityMarkers : StringMarkers :=
  { required := false, enum := some ["info", "error"], dflt := some "info", maxLength := none }

/-- Markers of `AlertSpec.EventSources`: `+required`, and nothing else. -/
def eventSourcesRequired : Bool := true

/-- Markers of `AlertSpec.ExclusionList`: `+optional`. -/
def exclusionListRequired : Bool := false

/-- Markers of `AlertSpec.Summary`: `MaxLength:=255`, `+optional`. -/
def summaryMarkers : StringMarkers :=
  { required := false, enum := none, dflt := none, maxLength := some 255 }

/-- Markers of `AlertSpec.Suspend`: `+optional`. -/
def suspendRequired : Bool := false

/-- A submitted `spec` object, with the JSON keys of `AlertSpec`. -/
structure AlertSpecDoc (P : Pkg) where
  providerRef : Option P.LocalObjectReference
  eventSeverity : Option String
  eventSources : Option (List P.CrossNamespaceObjectReference)
  exclusionList : Option (List String)
  summary : Option String
  suspend : Option Bool

/-- A submitted `status` object, with the JSON keys of `AlertStatus`; the
inlined `meta.ReconcileRequestStatus` contributes its keys, absent as a
whole when none of them is given. -/
structure AlertStatusDoc (P : Pkg) where
  reconcileRequestStatus : Option P.ReconcileRequestStatus
  conditions : Option (List P.Condition)
  observedGeneration : Option Int

/-- A submitted Alert object; `spec` and `status` are both `omitempty`. -/
structure AlertDoc (P : Pkg) where
  typeMeta : P.TypeMeta
  metadata : P.ObjectMeta
  spec : Option (AlertSpecDoc P)
  status : Option (AlertStatusDoc P)

/-- Defaulting of a `spec` object: `eventSeverity` and `summary` are the
keys with string markers, and only `eventSeverity` declares a default. -/
def defaultAlertSpec {P : Pkg} (d : AlertSpecDoc P) : AlertSpecDoc P :=
  { d with
    eventSeverity := applyDefault eventSeverityMarkers.dflt d.eventSeverity
    summary := applyDefault summaryMarkers.dflt d.summary }

/-- Validation of a `spec` object, one check per field, in field order. -/
def validateAlertSpec {P : Pkg} (d : AlertSpecDoc P) : Bool :=
  checkValue providerRefRequired P.validLocalObjectReference d.providerRef
    && checkString eventSeverityMarkers d.eventSeverity
    && checkValue eventSourcesRequired
        (fun xs => xs.all P.validCrossNamespaceObjectReference) d.eventSources
    && checkValue exclusionListRequired (fun _ => true) d.exclusionList
    && checkString summaryMarkers d.summary
    && checkValue suspendRequired (fun _ => true) d.suspend

/-- Admission of a `spec` object by the schema: defaulting, then validation.
`none` is a rejection; an admitted object is returned as defaulted. -/
def admitAlertSpec {P : Pkg} (d : AlertSpecDoc P) : Option (AlertSpecDoc P) :=
  let d1 := defaultAlertSpec d
  if validateAlertSpec d1 then some d1 else none

/-- Marker on `Alert.Status`: `+kubebuilder:default:={"observedGeneration":-1}`,
an object with the single key `observedGeneration`. -/
def statusDefault {P : Pkg} : AlertStatusDoc P :=
  { reconcileRequestStatus := none, conditions := none, observedGeneration := some (-1) }

/-- Defaulting of an Alert object: an absent `status` takes the declared
default, and a present `spec` is defaulted key by key. -/
def defaultAlert {P : Pkg} (d : AlertDoc P) : AlertDoc P :=
  { d with
    spec := d.spec.map defaultAlertSpec
    status := applyDefault (some statusDefault) d.status }

/-- The value of the Go field `AlertStatus.ObservedGeneration` (an `int64`
with the JSON key `observedGeneration,omitempty`) read from an Alert object:
an absent `status` or an absent key leaves the zero value 0. -/
def observedGenerationOf {P : Pkg} (d : AlertDoc P) : Int :=
  match d.status with
  | none => 0
  | some st =>
    match st.observedGeneration with
    | none => 0
    | some g => g

/-! ## Severity filter -/

/-- Modelled from the spec: the event record of section 3 (IncomingEvent),
which carries the kind, namespace and name of the originating object, a
severity level and a rendered message.  Events are produced outside the file. -/
structure IncomingEvent where
  kind : String
  nspace : String
  name : String
  severity : String
  message : String

/-- Modelled from the spec: the two severity levels of the glossary, `info`
below `error`. -/
inductive Severity where
  | info
  | error
  deriving DecidableEq, Repr

/-- Modelled from the spec: the level of an event (section 4.3), where an
unknown severity value is treated as the lowest level. -/
def eventLevel (severity : String) : Severity :=
  if severity = "error" then Severity.error else Severity.info

/-- Modelled from the spec: the threshold a rule declares in `eventSeverity`;
the specification speaks of the two allowed values only. -/
def threshold (eventSeverity : String) : Option Severity :=
  if eventSeverity = "info" then some Severity.info
  else if eventSeverity = "error" then some Severity.error
  else none

/-- Modelled from the spec: the severity filter `admits(rule, event)` of
section 4.3, whose implementation is not in the file: an `info` threshold
admits every event, an `error` threshold admits only events of level
`error`.  The result is `none` for a threshold outside the two levels. -/
def admits {P : Pkg} (rule : AlertSpec P) (event : IncomingEvent) : Option Bool :=
  match threshold rule.EventSeverity with
  | none => none
  | some Severity.info => some true
  | some Severity.error => some (decide (eventLevel event.severity = Severity.error))

/-! ## A concrete instance of the imported declarations -/

/-- An instance of the imported declarations, used to evaluate the
definitions on concrete inputs: references and conditions are given by their
names, a source selector by kind, namespace and name; a reference is valid
when its name is not empty. -/
@[reducible] def demo : Pkg :=
  { TypeMeta := String × String
    ObjectMeta := String
    Condition := String
    LocalObjectReference := String
    ReconcileRequestStatus := String
    CrossNamespaceObjectReference := String × String × String
    validLocalObjectReference := fun name => decide (name ≠ "")
    validCrossNamespaceObjectReference := fun r => decide (r.1 ≠ "" ∧ r.2.2 ≠ "") }

/-- A concrete rule: provider `slack`, one source selector. -/
def demoSpec : AlertSpec demo :=
  { ProviderRef := "slack"
    EventSeverity := "info"
    EventSources := some [("Deployment", "*", "api")]
    ExclusionList := none
    Summary := "prod"
    Suspend := false }

/-- A concrete Alert with one condition set. -/
def demoAlert : Alert demo :=
  { TypeMeta := ("Alert", "notification.toolkit.fluxcd.io/v1beta2")
    ObjectMeta := "on-call"
    Spec := demoSpec
    Status := { ReconcileRequestStatus := "", Conditions := some ["Ready"], ObservedGeneration := 3 } }

/-- A concrete submitted `spec` with every optional key absent. -/
def demoDoc : AlertSpecDoc demo :=
  { providerRef := some "slack"
    eventSeverity := none
    eventSources := some [("Deployment", "*", "api")]
    exclusionList := none
    summary := none
    suspend := none }

/-- The concrete `spec` with an `eventSources` list of zero elements. -/
def emptySourcesDoc : AlertSpecDoc demo :=
  { providerRef := some "slack"
    eventSeverity := none
    eventSources := some []
    exclusionList := none
    summary := none
    suspend := none }

/-- A concrete submitted Alert without the `status` key. -/
def absentStatusDoc : AlertDoc demo :=
  { typeMeta := ("Alert", "notification.toolkit.fluxcd.io/v1beta2")
    metadata := "on-call"
    spec := some demoDoc
    status := none }

/-- A concrete Alert that was never processed and whose `status` key is
present as the empty object, which is how a Go client serialises the
zero-valued `AlertStatus` (a struct field is not dropped by `omitempty`). -/
def emptyStatusDoc : AlertDoc demo :=
  { typeMeta := ("Alert", "notification.toolkit.fluxcd.io/v1beta2")
    metadata := "on-call"
    spec := some demoDoc
    status := some { reconcileRequestStatus := none, conditions := none,
                     observedGeneration := none } }

/-- A string of `n` characters. -/
def textOfLength (n : Nat) : String := String.mk (List.replicate n 'x')

/-! ## The accessors -/

/-- C1: set-then-get round trip.  After `SetConditions c` on an Alert,
`GetConditions` returns exactly `c`: the same slice, hence the same elements
in the same order; in particular the nil slice comes back as nil and the
empty slice as the empty slice. -/
theorem GetConditions_SetConditions {P : Pkg} (a : Alert P) (c : Slice P.Condition) :
    (GetConditions (SetConditions a c)).1 = c
      ∧ Slice.elems (GetConditions (SetConditions a c)).1 = Slice.elems c
      ∧ (GetConditions (SetConditions a none)).1 = none
      ∧ (GetConditions (SetConditions a (some []))).1 = some [] :=
  ⟨rfl, rfl, rfl, rfl⟩

/-- C2: `GetConditions` returns the status conditions of the object, that is
`a.Status.Conditions`, and leaves the object as it was; on an Alert whose
status is still the zero value the result is the nil slice. -/
theorem GetConditions_returns_status_conditions {P : Pkg} (a : Alert P) :
    (GetConditions a).1 = a.Status.Conditions
      ∧ (GetConditions a).2 = a
      ∧ ∀ (tm : P.TypeMeta) (om : P.ObjectMeta) (sp : AlertSpec P)
          (r : P.ReconcileRequestStatus),
          (GetConditions (Alert.mk tm om sp (AlertStatus.zero r))).1 = none :=
  ⟨rfl, rfl, fun _ _ _ _ => rfl⟩

/-- C8: frame of `SetConditions`.  The call changes `Status.Conditions` and
nothing else: the type and object metadata, the whole spec (provider
reference, event severity, event sources, exclusion list, summary, suspend),
the observed generation and the inlined reconcile request status are the
same before and after. -/
theorem SetConditions_frame {P : Pkg} (a : Alert P) (c : Slice P.Condition) :
    (SetConditions a c).TypeMeta = a.TypeMeta
      ∧ (SetConditions a c).ObjectMeta = a.ObjectMeta
      ∧ (SetConditions a c).Spec = a.Spec
      ∧ (SetConditions a c).Spec.ProviderRef = a.Spec.ProviderRef
      ∧ (SetConditions a c).Spec.EventSeverity = a.Spec.EventSeverity
      ∧ (SetConditions a c).Spec.EventSources = a.Spec.EventSources
      ∧ (SetConditions a c).Spec.ExclusionList = a.Spec.ExclusionList
      ∧ (SetConditions a c).Spec.Summary = a.Spec.Summary
      ∧ (SetConditions a c).Spec.Suspend = a.Spec.Suspend
      ∧ (SetConditions a c).Status.ObservedGeneration = a.Status.ObservedGeneration
      ∧ (SetConditions a c).Status.ReconcileRequestStatus = a.Status.ReconcileRequestStatus
      ∧ (SetConditions a c).Status.Conditions = c :=
  ⟨rfl, rfl, rfl, rfl, rfl, rfl, rfl, rfl, rfl, rfl, rfl, rfl⟩

/-- C9: `SetConditions` overwrites, the last write wins.  Setting `c1` and
then `c2` gives the same Alert as setting `c2` alone; setting `c` twice is
the same as setting it once; and the conditions read back after the two
writes are those of `c2`, so none of `c1` survives unless it is in `c2`. -/
theorem SetConditions_last_write_wins {P : Pkg} (a : Alert P) (c1 c2 : Slice P.Condition) :
    SetConditions (SetConditions a c1) c2 = SetConditions a c2
      ∧ SetConditions (SetConditions a c1) c1 = SetConditions a c1
      ∧ (GetConditions (SetConditions (SetConditions a c1) c2)).1 = c2
      ∧ Slice.elems (GetConditions (SetConditions (SetConditions a c1) c2)).1
          ⊆ Slice.elems c2 :=
  ⟨rfl, rfl, rfl, fun _ h => h⟩

/-- C10: get-then-set is the identity.  Writing back the conditions that
`GetConditions` returned leaves the Alert equal to what it was, in every
field. -/
theorem SetConditions_GetConditions {P : Pkg} (a : Alert P) :
    SetConditions (GetConditions a).2 (GetConditions a).1 = a
      ∧ SetConditions a (GetConditions a).1 = a :=
  ⟨rfl, rfl⟩

/-! ## Schema admission -/

/-- An admitted `spec` is the defaulted one, and the defaulted one passes
validation. -/
theorem admitAlertSpec_eq_some {P : Pkg} (d s : AlertSpecDoc P) :
    admitAlertSpec d = some s ↔
      validateAlertSpec (defaultAlertSpec d) = true ∧ s = defaultAlertSpec d := by
  unfold admitAlertSpec
  by_cases hv : validateAlertSpec (defaultAlertSpec d) = true
  · simp [hv, eq_comm]
  · simp [hv]

/-- A `spec` is admitted exactly when its defaulted form passes validation. -/
theorem admitAlertSpec_isSome {P : Pkg} (d : AlertSpecDoc P) :
    (admitAlertSpec d).isSome = validateAlertSpec (defaultAlertSpec d) := by
  unfold admitAlertSpec
  by_cases hv : validateAlertSpec (defaultAlertSpec d) = true
  · simp [hv]
  · simp [hv]

/-- Validation is the conjunction of the six field checks. -/
theorem validateAlertSpec_iff {P : Pkg} (d : AlertSpecDoc P) :
    validateAlertSpec d = true ↔
      checkValue providerRefRequired P.validLocalObjectReference d.providerRef = true
      ∧ checkString eventSeverityMarkers d.eventSeverity = true
      ∧ checkValue eventSourcesRequired
          (fun xs => xs.all P.validCrossNamespaceObjectReference) d.eventSources = true
      ∧ checkValue exclusionListRequired (fun _ => true) d.exclusionList = true
      ∧ checkString summaryMarkers d.summary = true
      ∧ checkValue suspendRequired (fun _ => true) d.suspend = true := by
  simp [validateAlertSpec, Bool.and_eq_true, and_assoc]

/-- The severity check accepts exactly an absent key, `info` and `error`. -/
theorem checkString_eventSeverity (v : Option String) :
    checkString eventSeverityMarkers v = true ↔
      v = none ∨ v = some "info" ∨ v = some "error" := by
  cases v with
  | none => simp [checkString, eventSeverityMarkers]
  | some x => simp [checkString, eventSeverityMarkers, checkEnum, checkMaxLength]

/-- The summary check accepts exactly an absent key and a text of at most
255 characters. -/
theorem checkString_summary (v : Option String) :
    checkString summaryMarkers v = true ↔ ∀ t, v = some t → t.length ≤ 255 := by
  cases v with
  | none => simp [checkString, summaryMarkers]
  | some x => simp [checkString, summaryMarkers, checkEnum, checkMaxLength]

/-- C3 as stated fails: an Alert that was never processed but whose `status`
is present as the empty object is not defaulted; its `observedGeneration`
key stays absent, so the value read is 0 and not -1. -/
theorem empty_status_not_defaulted :
    emptyStatusDoc.status.bind (fun st => st.observedGeneration) = none
      ∧ (defaultAlert emptyStatusDoc).status.bind (fun st => st.observedGeneration) = none
      ∧ (defaultAlert emptyStatusDoc).status.bind (fun st => st.observedGeneration)
          ≠ some (-1)
      ∧ observedGenerationOf (defaultAlert emptyStatusDoc) = 0
      ∧ observedGenerationOf (defaultAlert emptyStatusDoc) ≠ -1 := by
  refine ⟨?_, ?_, ?_, ?_, ?_⟩ <;> decide

/-- C3, amended: the status default.  An Alert whose `status` key is absent
gets, by defaulting, the declared status default, whose `observedGeneration`
is -1 and not 0; a `status` that is present is left as submitted, whatever
keys it has. -/
theorem status_default_observedGeneration {P : Pkg} (d : AlertDoc P) :
    (d.status = none →
        (defaultAlert d).status = some statusDefault
          ∧ (defaultAlert d).status.bind (fun st => st.observedGeneration) = some (-1)
          ∧ (defaultAlert d).status.bind (fun st => st.observedGeneration) ≠ some 0
          ∧ observedGenerationOf (defaultAlert d) = -1)
      ∧ (∀ st, d.status = some st →
          (defaultAlert d).status = some st
            ∧ observedGenerationOf (defaultAlert d) = observedGenerationOf d) := by
  refine ⟨?_, ?_⟩
  · intro h
    simp [defaultAlert, applyDefault, h, statusDefault, observedGenerationOf]
  · intro st h
    simp [defaultAlert, applyDefault, h, observedGenerationOf]

/-- C3 amended, on concrete inputs: a submitted Alert without `status` reads
-1 after defaulting, and one whose `status` holds generation 3 keeps it. -/
theorem status_default_observedGeneration_witness :
    absentStatusDoc.status = none
      ∧ observedGenerationOf (defaultAlert absentStatusDoc) = -1
      ∧ observedGenerationOf
          (defaultAlert ({ absentStatusDoc with
            status := some { reconcileRequestStatus := none, conditions := none,
                             observedGeneration := some 3 } } : AlertDoc demo)) = 3 :=
  ⟨rfl,
    ((status_default_observedGeneration absentStatusDoc).1 rfl).2.2.2,
    ((status_default_observedGeneration
      ({ absentStatusDoc with
        status := some { reconcileRequestStatus := none, conditions := none,
                         observedGeneration := some 3 } } : AlertDoc demo)).2 _ rfl).2⟩

/-- C4 as stated fails: a `spec` whose `eventSources` is present with zero
elements is admitted by the schema, and the admitted object still has the
empty list. -/
theorem empty_eventSources_admitted :
    emptySourcesDoc.eventSources = some []
      ∧ (admitAlertSpec emptySourcesDoc).isSome = true
      ∧ (admitAlertSpec emptySourcesDoc).bind (fun s => s.eventSources) = some [] := by
  refine ⟨rfl, ?_, ?_⟩ <;> decide

/-- C4, amended: every admitted `spec` has the `eventSources` key present (a
`spec` without it is rejected), and the number of elements is not
constrained: an admitted `spec` stays admitted when its `eventSources` is
replaced by the empty list. -/
theorem admitted_has_eventSources {P : Pkg} (d s : AlertSpecDoc P)
    (h : admitAlertSpec d = some s) :
    d.eventSources ≠ none
      ∧ s.eventSources = d.eventSources
      ∧ (admitAlertSpec { d with eventSources := some [] }).isSome = true := by
  rw [admitAlertSpec_eq_some, validateAlertSpec_iff] at h
  obtain ⟨⟨h1, h2, h3, h4, h5, h6⟩, rfl⟩ := h
  refine ⟨?_, rfl, ?_⟩
  · intro hn
    simp [defaultAlertSpec, hn, checkValue, eventSourcesRequired] at h3
  · rw [admitAlertSpec_isSome, validateAlertSpec_iff]
    exact ⟨h1, h2, by simp [defaultAlertSpec, checkValue], h4, h5, h6⟩

/-- C4 amended, on a concrete input: the demo `spec` is admitted. -/
theorem admitted_has_eventSources_witness :
    demoDoc.eventSources ≠ none
      ∧ (defaultAlertSpec demoDoc).eventSources = demoDoc.eventSources
      ∧ (admitAlertSpec { demoDoc with eventSources := some [] }).isSome = true :=
  admitted_has_eventSources demoDoc (defaultAlertSpec demoDoc) rfl

/-- C5: the event severity of an admitted `spec`.  After defaulting it is
exactly `info` or `error`; an omitted `eventSeverity` becomes `info` and
passes the check; and a `spec` whose `eventSeverity` is any other string is
rejected. -/
theorem eventSeverity_info_or_error {P : Pkg} (d : AlertSpecDoc P) :
    (∀ s, admitAlertSpec d = some s →
        s.eventSeverity = some "info" ∨ s.eventSeverity = some "error")
      ∧ (d.eventSeverity = none →
          (defaultAlertSpec d).eventSeverity = some "info"
            ∧ checkString eventSeverityMarkers (defaultAlertSpec d).eventSeverity = true
            ∧ ∀ s, admitAlertSpec d = some s → s.eventSeverity = some "info")
      ∧ (∀ v, d.eventSeverity = some v → v ≠ "info" → v ≠ "error" →
          admitAlertSpec d = none) := by
  refine ⟨?_, ?_, ?_⟩
  · intro s h
    rw [admitAlertSpec_eq_some, validateAlertSpec_iff] at h
    obtain ⟨⟨-, h2, -⟩, rfl⟩ := h
    rw [checkString_eventSeverity] at h2
    rcases h2 with h2 | h2
    · cases hd : d.eventSeverity <;>
        simp [defaultAlertSpec, applyDefault, eventSeverityMarkers, hd] at h2
    · exact h2
  · intro hn
    have hdef : (defaultAlertSpec d).eventSeverity = some "info" := by
      simp [defaultAlertSpec, applyDefault, eventSeverityMarkers, hn]
    refine ⟨hdef, ?_, ?_⟩
    · rw [checkString_eventSeverity, hdef]
      simp
    · intro s h
      rw [admitAlertSpec_eq_some] at h
      rw [h.2]
      exact hdef
  · intro v hv h1 h2
    cases hadm : admitAlertSpec d with
    | none => rfl
    | some s =>
      exfalso
      rw [admitAlertSpec_eq_some, validateAlertSpec_iff] at hadm
      obtain ⟨⟨-, h3, -⟩, -⟩ := hadm
      rw [checkString_eventSeverity] at h3
      simp [defaultAlertSpec, applyDefault, hv, h1, h2] at h3

/-- C5, on concrete inputs: the demo `spec` omits `eventSeverity` and is
admitted with `info`; with `eventSeverity: warn` it is rejected. -/
theorem eventSeverity_info_or_error_witness :
    demoDoc.eventSeverity = none
      ∧ admitAlertSpec demoDoc = some (defaultAlertSpec demoDoc)
      ∧ (defaultAlertSpec demoDoc).eventSeverity = some "info"
      ∧ admitAlertSpec ({ demoDoc with eventSeverity := some "warn" } : AlertSpecDoc demo)
          = none :=
  ⟨rfl, rfl,
    ((eventSeverity_info_or_error demoDoc).2.1 rfl).2.2 (defaultAlertSpec demoDoc) rfl,
    (eventSeverity_info_or_error
      ({ demoDoc with eventSeverity := some "warn" } : AlertSpecDoc demo)).2.2
      "warn" rfl (by decide) (by decide)⟩

/-- The text built by `textOfLength n` has `n` characters. -/
theorem textOfLength_length (n : Nat) : (textOfLength n).length = n := by
  simp [textOfLength, String.length]

/-- C6: the summary of an admitted `spec` has at most 255 characters.  A
`spec` with a summary of 256 or more characters is rejected; in an admitted
`spec` the summary may be replaced by any text of 255 characters, or left
out, and the `spec` is still admitted. -/
theorem summary_maxLength {P : Pkg} (d : AlertSpecDoc P) :
    (∀ s t, admitAlertSpec d = some s → s.summary = some t → t.length ≤ 255)
      ∧ (∀ t, d.summary = some t → 256 ≤ t.length → admitAlertSpec d = none)
      ∧ (∀ t, t.length = 255 → (admitAlertSpec d).isSome = true →
          (admitAlertSpec { d with summary := some t }).isSome = true)
      ∧ ((admitAlertSpec d).isSome = true →
          (admitAlertSpec { d with summary := none }).isSome = true) := by
  refine ⟨?_, ?_, ?_, ?_⟩
  · intro s t h hs
    rw [admitAlertSpec_eq_some, validateAlertSpec_iff] at h
    obtain ⟨⟨-, -, -, -, h5, -⟩, rfl⟩ := h
    exact (checkString_summary _).1 h5 t hs
  · intro t ht hlen
    cases hadm : admitAlertSpec d with
    | none => rfl
    | some s =>
      exfalso
      rw [admitAlertSpec_eq_some, validateAlertSpec_iff] at hadm
      obtain ⟨⟨-, -, -, -, h5, -⟩, -⟩ := hadm
      have := (checkString_summary _).1 h5 t
        (by simp [defaultAlertSpec, applyDefault, ht])
      omega
  · intro t ht h
    rw [admitAlertSpec_isSome, validateAlertSpec_iff] at h ⊢
    obtain ⟨h1, h2, h3, h4, -, h6⟩ := h
    refine ⟨h1, h2, h3, h4, ?_, h6⟩
    rw [checkString_summary]
    intro u hu
    simp [defaultAlertSpec, applyDefault] at hu
    subst hu
    omega
  · intro h
    rw [admitAlertSpec_isSome, validateAlertSpec_iff] at h ⊢
    obtain ⟨h1, h2, h3, h4, -, h6⟩ := h
    refine ⟨h1, h2, h3, h4, ?_, h6⟩
    rw [checkString_summary]
    intro u hu
    simp [defaultAlertSpec, applyDefault, summaryMarkers] at hu

/-- C6, on concrete inputs: the demo `spec` with a summary of 255 characters
is admitted, with one of 256 characters it is rejected. -/
theorem summary_maxLength_witness :
    (admitAlertSpec ({ demoDoc with summary := some (textOfLength 255) } :
        AlertSpecDoc demo)).isSome = true
      ∧ admitAlertSpec ({ demoDoc with summary := some (textOfLength 256) } :
          AlertSpecDoc demo) = none :=
  ⟨(summary_maxLength demoDoc).2.2.1 (textOfLength 255) (textOfLength_length 255) (by decide),
    (summary_maxLength ({ demoDoc with summary := some (textOfLength 256) } :
      AlertSpecDoc demo)).2.1 (textOfLength 256) rfl (textOfLength_length 256).ge⟩

/-! ## Severity filter -/

/-- C7: a rule whose `eventSeverity` is `info` admits every event, whatever
its severity, so events of level `info` and of level `error` both pass; a
rule whose `eventSeverity` is `error` admits exactly the events of level
`error`. -/
theorem admits_by_eventSeverity {P : Pkg} (rule : AlertSpec P) (event : IncomingEvent) :
    (rule.EventSeverity = "info" → admits rule event = some true)
      ∧ (rule.EventSeverity = "error" →
          (admits rule event = some true ↔ event.severity = "error")
            ∧ (event.severity ≠ "error" → admits rule event = some false)) := by
  refine ⟨?_, ?_⟩
  · intro h
    simp [admits, threshold, h]
  · intro h
    by_cases he : event.severity = "error"
    · simp [admits, threshold, h, eventLevel, he]
    · simp [admits, threshold, h, eventLevel, he]

/-- C7, on concrete inputs: the demo rule has severity `info` and admits an
`info` event; the same rule with severity `error` drops it and admits an
`error` event. -/
theorem admits_by_eventSeverity_witness :
    admits demoSpec (IncomingEvent.mk "Deployment" "prod" "api" "info" "ok") = some true
      ∧ admits ({ demoSpec with EventSeverity := "error" } : AlertSpec demo)
          (IncomingEvent.mk "Deployment" "prod" "api" "info" "ok") = some false
      ∧ admits ({ demoSpec with EventSeverity := "error" } : AlertSpec demo)
          (IncomingEvent.mk "Deployment" "prod" "api" "error" "failed") = some true :=
  ⟨(admits_by_eventSeverity demoSpec _).1 rfl,
    ((admits_by_eventSeverity ({ demoSpec with EventSeverity := "error" } : AlertSpec demo)
      (IncomingEvent.mk "Deployment" "prod" "api" "info" "ok")).2 rfl).2 (by decide),
    ((admits_by_eventSeverity ({ demoSpec with EventSeverity := "error" } : AlertSpec demo)
      (IncomingEvent.mk "Deployment" "prod" "api" "error" "failed")).2 rfl).1.2 rfl⟩

end V1beta2
